import Mathlib

/-!
Shallow embedding of the `observability-library` metrics pipeline
(`src/lib.rs`, `src/metrics.rs`), together with the parts of the data
model that those files consume from the repository's `core` and
`storage` modules (modelled from the specification where the source is
not available).

Tabular record batches are opaque external values; the development is
polymorphic in a batch type `β`.
-/

namespace DfMetrics

/-- Modelled from the spec: `core/definition.rs` `AggregateType` — closed
enumeration of aggregate kinds; only `Sum` appears in current scope. -/
inductive AggregateType : Type
  | Sum
  deriving DecidableEq, Repr

/-- Modelled from the spec: the metric kind of a built-in metric stage
(`CountNull` is the only built-in metric in scope). -/
inductive MetricKind : Type
  | CountNull
  deriving DecidableEq, Repr

/-- Modelled from the spec: one stage of a `Transformation` — Select,
Aggregate, GroupBy or a built-in metric with source column and optional
output alias. -/
inductive Stage : Type
  | Select (columns : List String)
  | Aggregate (kind : AggregateType) (columns : List String)
  | GroupBy (columns : List String)
  | BuiltInMetric (kind : MetricKind) (column : String) (aliasName : Option String)
  deriving DecidableEq, Repr

/-- Modelled from the spec: `core/definition.rs` `Transformation` — the
immutable declarative plan: an ordered list of stages. -/
structure Transformation : Type where
  stages : List Stage
  deriving DecidableEq, Repr

/-- Modelled from the spec: `Transformation::default()` — the empty stage
list is the valid identity Transformation. -/
def Transformation.default : Transformation := ⟨[]⟩

/-- Modelled from the spec: `core/definition.rs` `BuiltInMetricsBuilder` —
stateless convenience factory for canned metrics. -/
structure BuiltInMetricsBuilder : Type where
  deriving DecidableEq, Repr

/-- Modelled from the spec: `BuiltInMetricsBuilder::new()`. -/
def BuiltInMetricsBuilder.new : BuiltInMetricsBuilder := ⟨⟩

/-- Modelled from the spec: `BuiltInMetricsBuilder::count_null(column, alias)` —
returns a Transformation whose sole stage computes the number of
null/missing values of the given column; `alias` optionally renames the
output column. -/
def BuiltInMetricsBuilder.count_null (_b : BuiltInMetricsBuilder)
    (column : String) (aliasName : Option String) : Transformation :=
  ⟨[Stage.BuiltInMetric MetricKind.CountNull column aliasName]⟩

/-- `src/lib.rs` `MetricError`: the typed error surfaced by `publish`.
`DataFusionError` wraps the external engine error (the engine's error
payload is modelled as a string), `StorageBackendNotSupported` carries
the backend's display name. -/
inductive MetricError : Type
  | DataFusionError (msg : String)
  | StorageBackendNotSupported (name : String)
  deriving DecidableEq, Repr

/-- The external compute engine's failure payload (spec: `ComputeError`),
modelled as its message. -/
abbrev ComputeError := String

/-- Modelled from the spec: `src/storage.rs` `StorageBackend` — a closed
sum type of sink identifiers, currently `Stdout` and designed to grow;
the sinks the spec anticipates (file, network, queue) are included as
the grown variants so the non-`Stdout` arm of `publish` is populated. -/
inductive StorageBackend : Type
  | Stdout
  | File
  | Network
  | Queue
  deriving DecidableEq, Repr

/-- Modelled from the spec: the `Display` name of a backend, used by
`publish` to build the `StorageBackendNotSupported` error. -/
def StorageBackend.name : StorageBackend → String
  | .Stdout => "Stdout"
  | .File => "File"
  | .Network => "Network"
  | .Queue => "Queue"

/-- `src/metrics.rs` `MetricsManager`: holds the configured
transformation and the staged record batches (batch type `β`). -/
structure MetricsManager (β : Type) : Type where
  transformation : Transformation
  batches : List β
  deriving DecidableEq, Repr

/-- `MetricsManager::default()`: identity transformation, no batches. -/
def MetricsManager.default {β : Type} : MetricsManager β :=
  ⟨Transformation.default, []⟩

/-- `MetricsManager::transform`: consumes the manager, sets the
transformation, returns the updated value. -/
def MetricsManager.transform {β : Type} (m : MetricsManager β)
    (transformation : Transformation) : MetricsManager β :=
  { m with transformation := transformation }

/-- `MetricsManager::execute`: a staging call — consumes the manager,
sets the batch list, returns the updated value. No computation. -/
def MetricsManager.execute {β : Type} (m : MetricsManager β)
    (batches : List β) : MetricsManager β :=
  { m with batches := batches }

/-- The injected compute-engine capability (spec §4.3): turns the staged
batches and the transformation into result batches or a `ComputeError`. -/
abbrev Engine (β : Type) := List β → Transformation → Except ComputeError (List β)

/-- Observable steps taken by `publish`, in chronological order: one
invocation of the execution adapter, and writes of result batches to the
standard-output sink. -/
inductive Event (β : Type) : Type
  | engineCall (batches : List β) (t : Transformation)
  | write (b : β)
  deriving DecidableEq, Repr

/-- How a `publish` call terminates: `panic` models the abnormal
termination of Rust's `.unwrap()` on an engine failure, `ok` the
`Ok(())` return, `err` a returned typed `MetricError`. -/
inductive PublishOutcome : Type
  | panic (e : ComputeError)
  | ok
  | err (e : MetricError)
  deriving DecidableEq, Repr

/-- `MetricsManager::publish(&self, storage_backend)`: runs
`execute(self.batches.clone(), &self.transformation).await.unwrap()`,
then matches the backend — `Stdout` prints each result batch in order
and returns `Ok(())`, every other variant returns
`StorageBackendNotSupported(backend.to_string())`. The returned list is
the chronological event trace of the call. -/
def MetricsManager.publish {β : Type} (m : MetricsManager β) (engine : Engine β)
    (storage_backend : StorageBackend) : List (Event β) × PublishOutcome :=
  match engine m.batches m.transformation with
  | Except.error e => ([Event.engineCall m.batches m.transformation], PublishOutcome.panic e)
  | Except.ok result =>
    match storage_backend with
    | StorageBackend.Stdout =>
        (Event.engineCall m.batches m.transformation :: result.map Event.write,
         PublishOutcome.ok)
    | b =>
        ([Event.engineCall m.batches m.transformation],
         PublishOutcome.err (MetricError.StorageBackendNotSupported b.name))

/-- `publish` takes `&self`: the receiver after the call together with
the call's trace and outcome. -/
def MetricsManager.publishCall {β : Type} (m : MetricsManager β) (engine : Engine β)
    (storage_backend : StorageBackend) :
    MetricsManager β × (List (Event β) × PublishOutcome) :=
  (m, m.publish engine storage_backend)

/-- The engine invocations recorded in a trace. -/
def engineCalls {β : Type} : List (Event β) → List (List β × Transformation)
  | [] => []
  | Event.engineCall bs t :: es => (bs, t) :: engineCalls es
  | Event.write _ :: es => engineCalls es

/-- The batches written to the sink, in trace order. -/
def writes {β : Type} : List (Event β) → List β
  | [] => []
  | Event.engineCall _ _ :: es => writes es
  | Event.write b :: es => b :: writes es

/-- `src/metrics.rs` `PyTransformation`: the binding-layer wrapper of a
`Transformation`. -/
structure PyTransformation : Type where
  inner : Transformation
  deriving DecidableEq, Repr

/-- `src/metrics.rs` `PyBuiltInMetricsBuilder`. -/
structure PyBuiltInMetricsBuilder : Type where
  inner : BuiltInMetricsBuilder
  deriving DecidableEq, Repr

/-- `PyBuiltInMetricsBuilder::new()`. -/
def PyBuiltInMetricsBuilder.new : PyBuiltInMetricsBuilder :=
  ⟨BuiltInMetricsBuilder.new⟩

/-- `PyBuiltInMetricsBuilder::count_null(column, alias)`: the source
calls `self.inner.count_null(column, None)` — it forwards `None` in
place of its `alias` argument. -/
def PyBuiltInMetricsBuilder.count_null (b : PyBuiltInMetricsBuilder)
    (column : String) (_aliasName : Option String) : PyTransformation :=
  ⟨b.inner.count_null column none⟩

/-- The Python object heap for `PyMetricsManager` objects: each object
is identified by its index and holds its `inner` manager. `pyo3`
methods that take `PyRefMut<Self>` act on this heap. -/
structure PyHeap (β : Type) : Type where
  objs : List (MetricsManager β)
  deriving DecidableEq, Repr

/-- `PyMetricsManager::new()`: allocates a fresh object holding
`MetricsManager::default()`; returns the updated heap and the new
object's identity. -/
def PyMetricsManager.new {β : Type} (h : PyHeap β) : PyHeap β × Nat :=
  (⟨h.objs ++ [MetricsManager.default]⟩, h.objs.length)

/-- `PyMetricsManager::transform(mut slf, transformation)`: assigns
`slf.inner = MetricsManager { transformation: t.inner.clone(), batches: slf.inner.batches.clone() }`
in place, then returns `slf.into()` — the identity of the receiver
itself. -/
def PyMetricsManager.transform {β : Type} (h : PyHeap β) (slf : Nat)
    (transformation : PyTransformation) : PyHeap β × Nat :=
  let old := h.objs.getD slf MetricsManager.default
  (⟨h.objs.set slf ⟨transformation.inner, old.batches⟩⟩, slf)

/-- `PyMetricsManager::execute(mut slf, batches)`: converts the handed
batches (marshalling is the binding layer's precondition and is not
re-modelled), assigns
`slf.inner = MetricsManager { transformation: slf.inner.transformation.clone(), batches }`
in place, then returns `slf.into()` — the identity of the receiver. -/
def PyMetricsManager.execute {β : Type} (h : PyHeap β) (slf : Nat)
    (batches : List β) : PyHeap β × Nat :=
  let old := h.objs.getD slf MetricsManager.default
  (⟨h.objs.set slf ⟨old.transformation, batches⟩⟩, slf)

/-- `src/metrics.rs` `PyStorageBackend`: the Python-facing backend
enumeration — its only variant is `Stdout`. -/
inductive PyStorageBackend : Type
  | Stdout
  deriving DecidableEq, Repr

/-- `impl From<PyStorageBackend> for StorageBackend`. -/
def PyStorageBackend.toStorageBackend : PyStorageBackend → StorageBackend
  | PyStorageBackend.Stdout => StorageBackend.Stdout

/-! ## Helper lemmas on heap updates and traces -/

theorem getD_set_of_ne {α : Type} (l : List α) (i j : Nat) (x d : α)
    (hne : j ≠ i) : (l.set i x).getD j d = l.getD j d := by
  induction l generalizing i j with
  | nil => simp
  | cons a as ih =>
    cases i with
    | zero =>
      cases j with
      | zero => exact absurd rfl hne
      | succ j => simp
    | succ i =>
      cases j with
      | zero => simp
      | succ j =>
        simpa using ih i j (fun hc => hne (congrArg Nat.succ hc))

theorem getD_set_self {α : Type} (l : List α) (i : Nat) (x d : α)
    (hi : i < l.length) : (l.set i x).getD i d = x := by
  induction l generalizing i with
  | nil => simp at hi
  | cons a as ih =>
    cases i with
    | zero => rfl
    | succ i => simpa using ih i (by simpa using hi)

theorem engineCalls_map_write {β : Type} (r : List β) :
    engineCalls (r.map Event.write) = [] := by
  induction r with
  | nil => rfl
  | cons b bs ih => simpa [engineCalls] using ih

theorem writes_map_write {β : Type} (r : List β) :
    writes (r.map Event.write) = r := by
  induction r with
  | nil => rfl
  | cons b bs ih => simpa [writes] using ih

theorem getD_set_batches {β : Type} (l : List (MetricsManager β)) (i : Nat)
    (t : Transformation) (bs : List β) (d : MetricsManager β)
    (hi : i < l.length) : ((l.set i ⟨t, bs⟩).getD i d).batches = bs := by
  rw [getD_set_self l i _ d hi]

theorem getD_set_transformation {β : Type} (l : List (MetricsManager β)) (i : Nat)
    (t : Transformation) (bs : List β) (d : MetricsManager β)
    (hi : i < l.length) : ((l.set i ⟨t, bs⟩).getD i d).transformation = t := by
  rw [getD_set_self l i _ d hi]

/-! ## Claims -/

/-- C1: the spec's propagation policy ("every failure path returns a typed
error to the caller of `publish()`; never terminates abnormally") is
violated by the code: `publish` calls `.unwrap()` on the engine result, so
an engine failure makes `publish` terminate abnormally (panic) instead of
returning the `ComputeError`-wrapping `MetricError::DataFusionError`
variant that `src/lib.rs` defines for exactly this propagation. -/
theorem c1_publish_panics_on_engine_failure :
    (MetricsManager.default (β := Nat)).publish
        (fun _ _ => Except.error "schema mismatch") StorageBackend.Stdout
      = ([Event.engineCall [] Transformation.default],
         PublishOutcome.panic "schema mismatch") := rfl

/-- C2: `PyBuiltInMetricsBuilder::count_null("value", Some("null_count"))`
produces exactly the Transformation of the alias-free call — the wrapper
forwards `None` in place of its `alias` argument, so the supplied alias
never renames the output column, contradicting the claim. -/
theorem c2_py_count_null_drops_alias :
    (PyBuiltInMetricsBuilder.new.count_null "value" (some "null_count")).inner
        = BuiltInMetricsBuilder.new.count_null "value" none ∧
    (PyBuiltInMetricsBuilder.new.count_null "value" (some "null_count")).inner
        ≠ BuiltInMetricsBuilder.new.count_null "value" (some "null_count") :=
  ⟨rfl, by decide⟩

/-- C3 counterexample: on a heap holding one freshly defaulted Python
manager object, `PyMetricsManager::transform` returns the identity of the
receiver itself (object 0, not a new manager) and the receiver's stored
manager value is changed in place — so the claim "the result is a new
manager value and m itself is left unchanged" is false at this input. -/
theorem c3_counterexample :
    (PyMetricsManager.transform (β := Nat) ⟨[MetricsManager.default]⟩ 0
        ⟨⟨[Stage.Select ["id"]]⟩⟩).2 = 0 ∧
    ¬ ((PyMetricsManager.transform (β := Nat) ⟨[MetricsManager.default]⟩ 0
        ⟨⟨[Stage.Select ["id"]]⟩⟩).1.objs.getD 0 MetricsManager.default
          = MetricsManager.default) :=
  ⟨rfl, by decide⟩

/-- C3 (amended): the Rust-level `MetricsManager::transform`/`execute`
consume the manager and return the updated value, and a Python-level call
on object `i` leaves every distinct object `j ≠ i` unchanged (distinct
manager objects share no state); but the Python-level methods mutate the
receiver in place and return the receiver's own identity rather than a
new manager object. -/
theorem c3_staging_value_semantics {β : Type} (m : MetricsManager β)
    (t : Transformation) (bs : List β) (h : PyHeap β) (i j : Nat)
    (pt : PyTransformation) (d : MetricsManager β) (hne : j ≠ i) :
    m.transform t = ⟨t, m.batches⟩ ∧
    m.execute bs = ⟨m.transformation, bs⟩ ∧
    (PyMetricsManager.transform h i pt).2 = i ∧
    (PyMetricsManager.execute h i bs).2 = i ∧
    (PyMetricsManager.transform h i pt).1.objs.getD j d = h.objs.getD j d ∧
    (PyMetricsManager.execute h i bs).1.objs.getD j d = h.objs.getD j d :=
  ⟨rfl, rfl, rfl, rfl, getD_set_of_ne _ _ _ _ _ hne, getD_set_of_ne _ _ _ _ _ hne⟩

theorem c3_staging_value_semantics_witness :
    (PyMetricsManager.transform (β := Nat)
        ⟨[MetricsManager.default, ⟨⟨[]⟩, [7]⟩]⟩ 0
        ⟨⟨[Stage.Select ["id"]]⟩⟩).1.objs.getD 1 MetricsManager.default
      = (PyHeap.mk [MetricsManager.default, ⟨⟨[]⟩, [7]⟩]).objs.getD 1
          MetricsManager.default :=
  (c3_staging_value_semantics (MetricsManager.default (β := Nat))
    Transformation.default [] ⟨[MetricsManager.default, ⟨⟨[]⟩, [7]⟩]⟩ 0 1
    ⟨⟨[Stage.Select ["id"]]⟩⟩ MetricsManager.default (by decide)).2.2.2.2.1

/-- C4 counterexample: with an engine that fails, `publish` on a
non-`Stdout` backend terminates abnormally (the `.unwrap()` panic) and
does not return the `UnsupportedStorageBackend` error the claim requires
for every staged manager. -/
theorem c4_counterexample :
    ((MetricsManager.default (β := Nat)).publish
        (fun _ _ => Except.error "boom") StorageBackend.File).2
      = PublishOutcome.panic "boom" ∧
    ((MetricsManager.default (β := Nat)).publish
        (fun _ _ => Except.error "boom") StorageBackend.File).2
      ≠ PublishOutcome.err
          (MetricError.StorageBackendNotSupported StorageBackend.File.name) :=
  ⟨rfl, by decide⟩

/-- C4 (amended): whenever the compute step succeeds, `publish` with any
backend other than `Stdout` returns the `StorageBackendNotSupported`
error carrying the backend's display name, and writes nothing to the
sink for that call. -/
theorem c4_unsupported_backend {β : Type} (m : MetricsManager β)
    (engine : Engine β) (backend : StorageBackend) (r : List β)
    (hok : engine m.batches m.transformation = Except.ok r)
    (hne : backend ≠ StorageBackend.Stdout) :
    (m.publish engine backend).2
        = PublishOutcome.err
            (MetricError.StorageBackendNotSupported backend.name) ∧
    writes (m.publish engine backend).1 = [] := by
  unfold MetricsManager.publish
  rw [hok]
  cases backend with
  | Stdout => exact absurd rfl hne
  | File => exact ⟨rfl, rfl⟩
  | Network => exact ⟨rfl, rfl⟩
  | Queue => exact ⟨rfl, rfl⟩

theorem c4_unsupported_backend_witness :
    ((MetricsManager.mk (β := Nat) ⟨[]⟩ [1, 2]).publish
        (fun _ _ => Except.ok [9]) StorageBackend.File).2
      = PublishOutcome.err (MetricError.StorageBackendNotSupported "File") ∧
    writes ((MetricsManager.mk (β := Nat) ⟨[]⟩ [1, 2]).publish
        (fun _ _ => Except.ok [9]) StorageBackend.File).1 = [] :=
  c4_unsupported_backend (MetricsManager.mk ⟨[]⟩ [1, 2])
    (fun _ _ => Except.ok [9]) StorageBackend.File [9] rfl (by decide)

/-- C5: for every staged manager, engine and backend — supported or not —
the first observable step of `publish` is the invocation of the execution
adapter on the staged batches and transformation: the backend-support
decision never short-circuits the computation. -/
theorem c5_engine_invoked_before_backend_check {β : Type}
    (m : MetricsManager β) (engine : Engine β) (backend : StorageBackend) :
    (m.publish engine backend).1.head?
      = some (Event.engineCall m.batches m.transformation) := by
  unfold MetricsManager.publish
  cases engine m.batches m.transformation with
  | error e => rfl
  | ok r => cases backend <;> rfl

/-- C6: `transform` replaces the configured Transformation leaving the
staged batches unchanged, `execute` attaches the batch set leaving the
Transformation unchanged, and in the whole staged pipeline the execution
adapter is invoked exactly once — inside `publish`, on exactly the staged
batches and transformation; the staging calls themselves perform no
computation. -/
theorem c6_staging_frame_and_lazy {β : Type} (m : MetricsManager β)
    (t : Transformation) (bs : List β) (engine : Engine β)
    (backend : StorageBackend) :
    (m.transform t).batches = m.batches ∧
    (m.transform t).transformation = t ∧
    (m.execute bs).transformation = m.transformation ∧
    (m.execute bs).batches = bs ∧
    engineCalls (((m.transform t).execute bs).publish engine backend).1
      = [(bs, t)] := by
  refine ⟨rfl, rfl, rfl, rfl, ?_⟩
  show engineCalls ((MetricsManager.mk t bs).publish engine backend).1 = _
  unfold MetricsManager.publish
  cases engine (MetricsManager.mk t bs).batches
      (MetricsManager.mk t bs).transformation with
  | error e => rfl
  | ok r =>
    cases backend with
    | Stdout => simpa [engineCalls] using engineCalls_map_write r
    | File => rfl
    | Network => rfl
    | Queue => rfl

/-- C7: when the execution adapter returns the result sequence `r`,
publishing to `Stdout` writes exactly the batches of `r`, in order, after
the engine call, and the call returns success. -/
theorem c7_stdout_writes_all_in_order {β : Type} (m : MetricsManager β)
    (engine : Engine β) (r : List β)
    (hok : engine m.batches m.transformation = Except.ok r) :
    (m.publish engine StorageBackend.Stdout).1
        = Event.engineCall m.batches m.transformation :: r.map Event.write ∧
    writes (m.publish engine StorageBackend.Stdout).1 = r ∧
    (m.publish engine StorageBackend.Stdout).2 = PublishOutcome.ok := by
  unfold MetricsManager.publish
  rw [hok]
  exact ⟨rfl, by simpa [writes] using writes_map_write r, rfl⟩

theorem c7_stdout_writes_all_in_order_witness :
    writes ((MetricsManager.mk (β := Nat) ⟨[]⟩ [5, 6]).publish
        (fun _ _ => Except.ok [3, 1, 2]) StorageBackend.Stdout).1 = [3, 1, 2] ∧
    ((MetricsManager.mk (β := Nat) ⟨[]⟩ [5, 6]).publish
        (fun _ _ => Except.ok [3, 1, 2]) StorageBackend.Stdout).2
      = PublishOutcome.ok :=
  ⟨(c7_stdout_writes_all_in_order (MetricsManager.mk ⟨[]⟩ [5, 6])
      (fun _ _ => Except.ok [3, 1, 2]) [3, 1, 2] rfl).2.1,
   (c7_stdout_writes_all_in_order (MetricsManager.mk ⟨[]⟩ [5, 6])
      (fun _ _ => Except.ok [3, 1, 2]) [3, 1, 2] rfl).2.2⟩

/-- C8: `publish(Stdout)` takes the manager by shared reference — the
staged manager (its batches included) is unchanged by the call — and a
second `publish(Stdout)` on the manager coming out of the first call
yields the identical trace (the same batches written, in the same order)
and the identical outcome. -/
theorem c8_stdout_publish_no_mutation_and_repeatable {β : Type}
    (m : MetricsManager β) (engine : Engine β) :
    (m.publishCall engine StorageBackend.Stdout).1 = m ∧
    (m.publishCall engine StorageBackend.Stdout).1.publish engine
        StorageBackend.Stdout
      = m.publish engine StorageBackend.Stdout :=
  ⟨rfl, rfl⟩

/-- C9: every backend reachable from the Python-facing interface converts
to `StorageBackend.Stdout`, so `publish` can never return the
`StorageBackendNotSupported` error for a backend supplied through
`PyStorageBackend`. -/
theorem c9_py_backends_never_unsupported {β : Type} (pb : PyStorageBackend)
    (m : MetricsManager β) (engine : Engine β) (name : String) :
    (m.publish engine pb.toStorageBackend).2
      ≠ PublishOutcome.err (MetricError.StorageBackendNotSupported name) := by
  cases pb
  show (m.publish engine StorageBackend.Stdout).2 ≠ _
  unfold MetricsManager.publish
  cases engine m.batches m.transformation with
  | error e => simp
  | ok r => simp

/-- C10: restaging replaces wholesale — after `execute(b1)` then
`execute(b2)` the staged batches are exactly `b2`, and after
`transform(t1)` then `transform(t2)` the configured Transformation is
exactly `t2`, at the Rust level and on the Python object heap alike. -/
theorem c10_restaging_replaces_wholesale {β : Type} (m : MetricsManager β)
    (b1 b2 : List β) (t1 t2 : Transformation) (h : PyHeap β) (i : Nat)
    (d : MetricsManager β) (hi : i < h.objs.length) :
    ((m.execute b1).execute b2).batches = b2 ∧
    ((m.transform t1).transform t2).transformation = t2 ∧
    ((PyMetricsManager.execute
        (PyMetricsManager.execute h i b1).1 i b2).1.objs.getD i d).batches
      = b2 ∧
    ((PyMetricsManager.transform
        (PyMetricsManager.transform h i ⟨t1⟩).1 i ⟨t2⟩).1.objs.getD i d).transformation
      = t2 := by
  refine ⟨rfl, rfl, ?_, ?_⟩
  · exact getD_set_batches _ i _ b2 d (by simpa [PyMetricsManager.execute] using hi)
  · exact getD_set_transformation _ i t2 _ d
      (by simpa [PyMetricsManager.transform] using hi)

theorem c10_restaging_replaces_wholesale_witness :
    ((PyMetricsManager.execute
        (PyMetricsManager.execute (β := Nat) ⟨[MetricsManager.default]⟩ 0
          [4]).1 0 [8, 9]).1.objs.getD 0 MetricsManager.default).batches
      = [8, 9] ∧
    ((PyMetricsManager.transform
        (PyMetricsManager.transform (β := Nat) ⟨[MetricsManager.default]⟩ 0
          ⟨⟨[Stage.GroupBy ["category"]]⟩⟩).1 0
        ⟨⟨[Stage.Select ["id"]]⟩⟩).1.objs.getD 0
          MetricsManager.default).transformation
      = ⟨[Stage.Select ["id"]]⟩ :=
  ⟨(c10_restaging_replaces_wholesale (MetricsManager.default (β := Nat)) [4]
      [8, 9] ⟨[Stage.GroupBy ["category"]]⟩ ⟨[Stage.Select ["id"]]⟩
      ⟨[MetricsManager.default]⟩ 0 MetricsManager.default (by decide)).2.2.1,
   (c10_restaging_replaces_wholesale (MetricsManager.default (β := Nat)) [4]
      [8, 9] ⟨[Stage.GroupBy ["category"]]⟩ ⟨[Stage.Select ["id"]]⟩
      ⟨[MetricsManager.default]⟩ 0 MetricsManager.default (by decide)).2.2.2⟩

end DfMetrics
